import Mathlib

/-!
Verification of the conversational-assistant response protocol and dispatch
engine of the mobile storefront client (file `app/(tabs)/chatbot.tsx`).

The embedding is shallow: the inline logic of `messageMutation.onSuccess`,
`messageMutation.onError`, `loadConversation` and `sendMessage` is translated
into pure Lean functions over explicit state.  JavaScript peculiarities that
matter to the claims are modelled faithfully:
  * `JSON.parse` of the host platform is abstracted as a parameter
    `dec : String → Option AssistantResponse` (`none` = the parse throws);
  * the falsy-default `product.quantity || 1` maps `none` and `some 0` to `1`;
  * `Promise.all(...).then(...).catch(...)` is modelled by supplying the
    success/failure outcome of each issued mutation call as a function
    `out : Nat → Bool` (index into the issued call list); the `.then`
    continuation (cart-query invalidation) runs iff every call succeeded,
    and the `.catch` continuation logs exactly one aggregate error otherwise.
-/

/-- `Product` interface (chatbot.tsx lines 43-50): catalog record returned by
`api.getProducts`; every field but `id` is optional. -/
structure Product where
  id : Nat
  title : Option String := none
  quantity : Option Nat := none
  price : Option Nat := none
  deriving DecidableEq

/-- A partial product reference as it appears in an assistant reply's
`productList` (same `Product` TS interface; only `id` is required). -/
structure ProductRef where
  id : Nat
  title : Option String := none
  quantity : Option Nat := none
  deriving DecidableEq

/-- `AssistantResponse` interface (lines 52-58).  Fields are optional here
because the runtime value comes from untrusted JSON: an object may lack the
`event` tag (the `event?` case claims C1 is about) or any other field. -/
structure AssistantResponse where
  event : Option String := none
  message : String := ""
  productList : Option (List ProductRef) := none
  action : Option String := none
  page : Option String := none
  deriving DecidableEq

/-- The `assistantResponse` field of `ApiResponse` (line 61): either an
already-structured object or a string to be JSON-decoded. -/
inductive RawReply where
  | obj : AssistantResponse → RawReply
  | str : String → RawReply
  deriving DecidableEq

/-- Conversation envelope fields the dispatcher reads (lines 174-177). -/
structure ConversationInfo where
  id : Nat
  title : String
  status : String
  deriving DecidableEq

/-- `ApiResponse` (lines 60-63): payload of a successful send. -/
structure ApiResponse where
  assistantResponse : RawReply
  conversation : ConversationInfo
  deriving DecidableEq

/-- `Message` interface (lines 14-21): one transcript entry. -/
structure Message where
  role : String
  content : String
  event : Option String := none
  productList : Option (List ProductRef) := none
  action : Option String := none
  page : Option String := none
  deriving DecidableEq

/-- `CartAction` interface (lines 76-81): body of one `api.updateCart` call.
The `add to cart` branch puts the product id in `selectedPrice` (line 189),
the `remove from cart` branch puts it in `productId` (line 208). -/
structure CartAction where
  selectedPrice : Option Nat := none
  productId : Option Nat := none
  action : String
  quantity : Nat
  deriving DecidableEq

/-- The dispatcher-owned chat state (lines 99-103). -/
structure ChatState where
  messages : List Message
  conversationId : Option Nat
  conversationTitle : String
  conversationStatus : String
  deriving DecidableEq

/-- Response Normalizer (lines 156-172): an object is trusted as-is; a string
is JSON-decoded, falling back to `{event: "message", message: s}` when the
decode throws.  Total, hence it can never raise. -/
def parseAssistantResponse (dec : String → Option AssistantResponse) :
    RawReply → AssistantResponse
  | .obj o => o
  | .str s =>
    match dec s with
    | some o => o
    | none => { event := some "message", message := s }

/-- JavaScript `q || 1` on an optional numeric quantity (lines 191, 210):
absent and zero are falsy, so both default to 1. -/
def jsOr1 : Option Nat → Nat
  | none => 1
  | some q => if q = 0 then 1 else q

/-- One step of the Enrichment map body (lines 241-249): look the id up in the
catalog; on a hit, copy the catalog title onto the ref; otherwise pass the ref
through unchanged. -/
def enrichItem (products : List Product) (item : ProductRef) : ProductRef :=
  match products.find? (fun p => p.id == item.id) with
  | some fullProduct => { item with title := fullProduct.title }
  | none => item

/-- Enrichment Step (lines 239-250 and, identically, 272-283): the map only
runs when the catalog is non-empty; with an empty catalog the list is passed
through as-is. -/
def enrichList (products : List Product) (l : List ProductRef) : List ProductRef :=
  if products.length > 0 then l.map (enrichItem products) else l

/-- Cart fan-out call list (lines 184-227): only a `do` event with a non-empty
`productList` and action `add to cart` / `remove from cart` issues calls, one
`api.updateCart` call per `ProductRef`. -/
def cartCallsFor (r : AssistantResponse) : List CartAction :=
  if r.event = some "do" then
    match r.productList with
    | some l =>
      if l.isEmpty then []
      else
        match r.action with
        | some "add to cart" =>
          l.map (fun p =>
            { selectedPrice := some p.id, action := "add", quantity := jsOr1 p.quantity })
        | some "remove from cart" =>
          l.map (fun p =>
            { productId := some p.id, action := "remove", quantity := jsOr1 p.quantity })
        | _ => []
    | none => []
  else []

/-- Navigation instruction (lines 231-234): issued only for a `do` event whose
action is `go to page` with a truthy (non-empty) `page`. -/
def navigationFor (r : AssistantResponse) : Option String :=
  if r.event = some "do" then
    if r.action = some "go to page" then
      match r.page with
      | some p => if p = "" then none else some p
      | none => none
    else none
  else none

/-- Whether every issued mutation call succeeded: `out i` is the outcome of
the i-th call of the fan-out. -/
def allSucceeded (calls : List CartAction) (out : Nat → Bool) : Bool :=
  (List.range calls.length).all out

/-- `Promise.all(...).then(... invalidateQueries cart ...)` (lines 196-199 and
215-218): the cart query is invalidated iff the fan-out ran and every one of
its calls succeeded; `Promise.all` rejects on any single failure, skipping the
`.then` continuation. -/
def fanOutInvalidated (calls : List CartAction) (out : Nat → Bool) : Bool :=
  !calls.isEmpty && allSucceeded calls out

/-- `.catch(console.error)` (lines 200-202 and 219-221): a single aggregate
error is logged when the `Promise.all` rejects; nothing is logged otherwise. -/
def fanOutErrorCount (calls : List CartAction) (out : Nat → Bool) : Nat :=
  if calls.isEmpty then 0 else if allSucceeded calls out then 0 else 1

/-- The assistant messages appended for a normalized reply (lines 180-291):
exactly one message in each of the `do` / `message` / `suggest` branches, and
none at all when the event tag matches no branch. -/
def assistantMessagesFor (products : List Product) (r : AssistantResponse) :
    List Message :=
  if r.event = some "do" then
    [{ role := "assistant", content := r.message, event := r.event,
       productList := r.productList.map (enrichList products),
       action := r.action, page := r.page }]
  else if r.event = some "message" then
    [{ role := "assistant", content := r.message }]
  else if r.event = some "suggest" then
    [{ role := "assistant", content := r.message, event := r.event,
       productList := r.productList.map (enrichList products) }]
  else []

/-- Aggregate result of one `messageMutation.onSuccess` run: the new chat
state plus the observable side effects. -/
structure DispatchResult where
  state : ChatState
  cartCalls : List CartAction
  navigation : Option String
  cartInvalidated : Bool
  fanOutErrors : Nat
  deriving DecidableEq

/-- `messageMutation.onSuccess` (lines 151-292): normalize the reply, update
conversation id/title/status from the envelope, compute the cart fan-out,
navigation and appended messages. -/
def onSuccessStep (dec : String → Option AssistantResponse)
    (products : List Product) (st : ChatState) (data : ApiResponse)
    (out : Nat → Bool) : DispatchResult :=
  { state :=
      { messages :=
          st.messages ++
            assistantMessagesFor products (parseAssistantResponse dec data.assistantResponse)
        conversationId := some data.conversation.id
        conversationTitle := data.conversation.title
        conversationStatus := data.conversation.status }
    cartCalls := cartCallsFor (parseAssistantResponse dec data.assistantResponse)
    navigation := navigationFor (parseAssistantResponse dec data.assistantResponse)
    cartInvalidated :=
      fanOutInvalidated (cartCallsFor (parseAssistantResponse dec data.assistantResponse)) out
    fanOutErrors :=
      fanOutErrorCount (cartCallsFor (parseAssistantResponse dec data.assistantResponse)) out }

/-- The fixed fallback text of `messageMutation.onError` (line 299). -/
def fallbackText : String :=
  "Désolé, je n\x27ai pas pu traiter votre demande. Veuillez réessayer plus tard."

/-- `messageMutation.onError` (lines 293-302): append one fallback assistant
message; no other field of the state is touched. -/
def onErrorStep (st : ChatState) : ChatState :=
  { st with messages := st.messages ++ [{ role := "assistant", content := fallbackText }] }

/-- One persisted turn as read by `loadConversation` (role plus the raw text
`msg.content[0].text`). -/
structure PersistedTurn where
  role : String
  text : String
  deriving DecidableEq

/-- Per-turn body of the Transcript Codec (lines 348-378): an assistant turn
is JSON-decoded, degrading to a plain message carrying the raw text when the
decode throws; any other turn maps to a user message with the raw text. -/
def formatTurn (dec : String → Option AssistantResponse) (msg : PersistedTurn) :
    Message :=
  if msg.role = "assistant" then
    match dec msg.text with
    | some parsed =>
      { role := "assistant", content := parsed.message, event := parsed.event,
        productList := parsed.productList, action := parsed.action,
        page := parsed.page }
    | none => { role := "assistant", content := msg.text }
  else
    { role := "user", content := msg.text }

/-- Transcript Codec (the `conversation.messages.map` of `loadConversation`,
lines 348-378). -/
def formatConversationMessages (dec : String → Option AssistantResponse)
    (turns : List PersistedTurn) : List Message :=
  turns.map (formatTurn dec)

/-- JavaScript `String.prototype.trim`: drop whitespace from both ends
(structural definition over the character list, so it evaluates in the
kernel). -/
def jsTrim (s : String) : String :=
  ⟨((s.data.dropWhile Char.isWhitespace).reverse.dropWhile Char.isWhitespace).reverse⟩

/-- `sendMessage` (lines 388-406): a blank (after trim) input or an in-flight
mutation makes the call a no-op; otherwise the user message is appended, the
input box is cleared, and one remote request (conversation id, raw input
text) is issued. -/
def sendMessageStep (pending : Bool) (input : String) (st : ChatState) :
    ChatState × String × Option (Option Nat × String) :=
  if jsTrim input = "" ∨ pending = true then (st, input, none)
  else
    ({ st with messages := st.messages ++ [{ role := "user", content := input }] },
      "", some (st.conversationId, input))

/-- A decoder that recognizes nothing: stands for `JSON.parse` throwing on
every string. -/
def dec0 : String → Option AssistantResponse := fun _ => none

/-- An initial chat state used by concrete witnesses. -/
def st0 : ChatState :=
  { messages := [], conversationId := none, conversationTitle := "",
    conversationStatus := "active" }

/-- A decoder recognizing exactly one string, used by concrete witnesses to
stand for `JSON.parse` succeeding on that string and throwing on all others. -/
def decEx : String → Option AssistantResponse := fun s =>
  if s = "ok" then some { event := some "message", message := "Bonjour" } else none

/-- A successful reply whose structured object carries no `event` tag at all
(`{message: "hello"}`). -/
def c1data : ApiResponse :=
  { assistantResponse := .obj { message := "hello" },
    conversation := { id := 1, title := "t", status := "active" } }

/-- A `do` reply asking to add two products to the cart. -/
def c2data : ApiResponse :=
  { assistantResponse := .obj
      { event := some "do", message := "ok",
        productList := some [{ id := 1 }, { id := 2 }],
        action := some "add to cart" },
    conversation := { id := 1, title := "t", status := "active" } }

/-- A `do` remove-from-cart reply whose single product ref carries the
explicit quantity 0. -/
def c3ex : AssistantResponse :=
  { event := some "do", action := some "remove from cart",
    productList := some [{ id := 3, quantity := some 0 }] }

/-- The spec scenario for C3: remove `[{id 3, quantity 2}, {id 9}]`. -/
def c3w : AssistantResponse :=
  { event := some "do", action := some "remove from cart",
    productList := some [{ id := 3, quantity := some 2 }, { id := 9 }] }

/-- A `suggest` reply, used as the concrete C5 witness input. -/
def c5data : ApiResponse :=
  { assistantResponse := .obj
      { event := some "suggest", message := "Voici",
        productList := some [{ id := 7 }] },
    conversation := { id := 2, title := "s", status := "active" } }

/-- Claim C4: enrichment returns a list of the same length and order; every
entry whose id matches a catalog product gets its title from the (first
matching) catalog record; entries with no match pass through unchanged; with
an empty catalog every entry passes through unmodified. -/
theorem enrichment_preserves_structure (products : List Product)
    (l : List ProductRef) :
    (enrichList products l).length = l.length
    ∧ (∀ i : Nat, (enrichList products l)[i]? = (l[i]?).map (enrichItem products))
    ∧ (∀ item : ProductRef, ∀ fp : Product,
        products.find? (fun p => p.id == item.id) = some fp →
        enrichItem products item = { item with title := fp.title })
    ∧ (∀ item : ProductRef,
        products.find? (fun p => p.id == item.id) = none →
        enrichItem products item = item)
    ∧ (products = [] → enrichList products l = l) := by
  refine ⟨?_, ?_, ?_, ?_, ?_⟩
  · unfold enrichList; split <;> simp
  · intro i
    unfold enrichList
    split
    · simp
    · rename_i h
      have hp : products = [] := by
        cases products with
        | nil => rfl
        | cons a as => exact absurd (by simp) h
      subst hp
      cases hl : l[i]? with
      | none => simp
      | some a => simp [enrichItem]
  · intro item fp h
    simp [enrichItem, h]
  · intro item h
    simp [enrichItem, h]
  · intro h
    subst h
    simp [enrichList]

/-- Witness for C4 at the spec scenario: catalog `[{id 7, title "Firewall
Pro"}]`, refs `[{id 7}, {id 12}]`; also the empty-catalog passthrough. -/
theorem enrichment_preserves_structure_witness :
    (enrichList [{ id := 7, title := some "Firewall Pro" }] [{ id := 7 }, { id := 12 }]).length
      = ([{ id := 7 }, { id := 12 }] : List ProductRef).length
    ∧ enrichList [] [{ id := 7 }, { id := 12 }] = [{ id := 7 }, { id := 12 }]
    ∧ enrichItem [{ id := 7, title := some "Firewall Pro" }] { id := 7 }
        = { id := 7, title := some "Firewall Pro" } :=
  ⟨(enrichment_preserves_structure [{ id := 7, title := some "Firewall Pro" }]
      [{ id := 7 }, { id := 12 }]).1,
   (enrichment_preserves_structure [] [{ id := 7 }, { id := 12 }]).2.2.2.2 rfl,
   (enrichment_preserves_structure [{ id := 7, title := some "Firewall Pro" }]
      [{ id := 7 }, { id := 12 }]).2.2.1 { id := 7 }
      { id := 7, title := some "Firewall Pro" } (by decide)⟩

/-- Claim C6: on remote failure exactly one fallback assistant message with
the fixed apology text is appended as the last transcript entry, and the
conversation id, title and status are unchanged. -/
theorem transport_failure_fallback (st : ChatState) :
    (onErrorStep st).messages
      = st.messages ++ [{ role := "assistant", content := fallbackText }]
    ∧ (onErrorStep st).messages.getLast?
      = some { role := "assistant", content := fallbackText }
    ∧ (onErrorStep st).conversationId = st.conversationId
    ∧ (onErrorStep st).conversationTitle = st.conversationTitle
    ∧ (onErrorStep st).conversationStatus = st.conversationStatus := by
  refine ⟨rfl, ?_, rfl, rfl, rfl⟩
  simp [onErrorStep]

/-- Claim C7: a string reply that decodes to a structured reply normalizes to
the same event as normalizing the decoded object directly. -/
theorem normalize_string_object_agree (dec : String → Option AssistantResponse)
    (s : String) (o : AssistantResponse) (h : dec s = some o) :
    parseAssistantResponse dec (.str s) = parseAssistantResponse dec (.obj o) := by
  simp [parseAssistantResponse, h]

/-- Witness for C7 at the concrete decoder `decEx` and string `"ok"`. -/
theorem normalize_string_object_agree_witness :
    parseAssistantResponse decEx (.str "ok")
      = parseAssistantResponse decEx
          (.obj { event := some "message", message := "Bonjour" }) :=
  normalize_string_object_agree decEx "ok"
    { event := some "message", message := "Bonjour" } (by decide)

/-- Claim C8: a string reply on which the JSON decode throws normalizes (the
normalizer is a total function, hence never raises) to an event of kind
`message` whose content is the original string. -/
theorem normalize_malformed_string (dec : String → Option AssistantResponse)
    (s : String) (h : dec s = none) :
    (parseAssistantResponse dec (.str s)).event = some "message"
    ∧ (parseAssistantResponse dec (.str s)).message = s := by
  simp [parseAssistantResponse, h]

/-- Witness for C8 at the concrete decoder `decEx` and string `"not json"`. -/
theorem normalize_malformed_string_witness :
    (parseAssistantResponse decEx (.str "not json")).event = some "message"
    ∧ (parseAssistantResponse decEx (.str "not json")).message = "not json" :=
  normalize_malformed_string decEx "not json" (by decide)

/-- Claim C9: the Transcript Codec (a total function, hence it never throws)
is one-to-one with the input in the same order; user turns map to role `user`
with the raw text and no event metadata; an assistant turn whose content
fails to decode degrades to a message carrying the raw text. -/
theorem transcript_codec_spec (dec : String → Option AssistantResponse)
    (turns : List PersistedTurn) :
    (formatConversationMessages dec turns).length = turns.length
    ∧ (∀ i : Nat,
        (formatConversationMessages dec turns)[i]? = (turns[i]?).map (formatTurn dec))
    ∧ (∀ t : PersistedTurn, t.role = "user" →
        formatTurn dec t = { role := "user", content := t.text })
    ∧ (∀ t : PersistedTurn, t.role = "assistant" → dec t.text = none →
        formatTurn dec t = { role := "assistant", content := t.text }) := by
  refine ⟨by simp [formatConversationMessages], ?_, ?_, ?_⟩
  · intro i
    simp [formatConversationMessages]
  · intro t h
    simp [formatTurn, h]
  · intro t h h2
    simp [formatTurn, h, h2]

/-- Witness for C9: a user turn and an undecodable assistant turn. -/
theorem transcript_codec_spec_witness :
    (formatConversationMessages decEx
        [{ role := "user", text := "hi" }, { role := "assistant", text := "not json" }]).length
      = ([{ role := "user", text := "hi" },
          { role := "assistant", text := "not json" }] : List PersistedTurn).length
    ∧ formatTurn decEx { role := "user", text := "hi" }
        = { role := "user", content := "hi" }
    ∧ formatTurn decEx { role := "assistant", text := "not json" }
        = { role := "assistant", content := "not json" } :=
  ⟨(transcript_codec_spec decEx
      [{ role := "user", text := "hi" }, { role := "assistant", text := "not json" }]).1,
   (transcript_codec_spec decEx
      [{ role := "user", text := "hi" }, { role := "assistant", text := "not json" }]).2.2.1
      { role := "user", text := "hi" } rfl,
   (transcript_codec_spec decEx
      [{ role := "user", text := "hi" }, { role := "assistant", text := "not json" }]).2.2.2
      { role := "assistant", text := "not json" } rfl (by decide)⟩

/-- Claim C10: while another send is pending, or when the input is blank
after trimming, `sendMessage` is a complete no-op: the state is unchanged,
the input box is not cleared, and no remote request is issued. -/
theorem send_rejected_when_pending_or_blank (pending : Bool) (input : String)
    (st : ChatState) (h : pending = true ∨ jsTrim input = "") :
    sendMessageStep pending input st = (st, input, none) := by
  unfold sendMessageStep
  rw [if_pos (h.elim Or.inr Or.inl)]

/-- Witness for C10: a pending send and a whitespace-only input. -/
theorem send_rejected_when_pending_or_blank_witness :
    sendMessageStep true "hi" st0 = (st0, "hi", none)
    ∧ sendMessageStep false "   " st0 = (st0, "   ", none) :=
  ⟨send_rejected_when_pending_or_blank true "hi" st0 (Or.inl rfl),
   send_rejected_when_pending_or_blank false "   " st0 (Or.inr (by decide))⟩

/-- Claim C1 counterexample: the reply object lacking an event tag is left
untagged by the normalizer (`event = none`, not `message`) and the dispatcher
appends no assistant message at all — not "exactly one". -/
theorem untagged_reply_counterexample :
    (onSuccessStep dec0 [] st0 c1data (fun _ => true)).state.messages = []
    ∧ (parseAssistantResponse dec0 c1data.assistantResponse).event = none := by
  decide

/-- Claim C1 (amended): a reply that normalizes with an absent or unrecognized
event tag matches none of the `do`/`message`/`suggest` dispatch branches: no
assistant message is appended and no side effect is issued; the conversation
envelope is still applied. -/
theorem untagged_reply_appends_nothing (dec : String → Option AssistantResponse)
    (products : List Product) (st : ChatState) (data : ApiResponse)
    (out : Nat → Bool) (r : AssistantResponse)
    (hr : parseAssistantResponse dec data.assistantResponse = r)
    (h1 : r.event ≠ some "do") (h2 : r.event ≠ some "message")
    (h3 : r.event ≠ some "suggest") :
    (onSuccessStep dec products st data out).state.messages = st.messages
    ∧ (onSuccessStep dec products st data out).cartCalls = []
    ∧ (onSuccessStep dec products st data out).navigation = none
    ∧ (onSuccessStep dec products st data out).state.conversationId
        = some data.conversation.id := by
  refine ⟨?_, ?_, ?_, rfl⟩
  · simp [onSuccessStep, hr, assistantMessagesFor, h1, h2, h3]
  · simp [onSuccessStep, hr, cartCallsFor, h1]
  · simp [onSuccessStep, hr, navigationFor, h1]

/-- Witness for amended C1 at the concrete untagged reply `c1data`. -/
theorem untagged_reply_appends_nothing_witness :
    (onSuccessStep dec0 [] st0 c1data (fun _ => true)).state.messages = st0.messages
    ∧ (onSuccessStep dec0 [] st0 c1data (fun _ => true)).cartCalls = []
    ∧ (onSuccessStep dec0 [] st0 c1data (fun _ => true)).navigation = none
    ∧ (onSuccessStep dec0 [] st0 c1data (fun _ => true)).state.conversationId
        = some 1 :=
  untagged_reply_appends_nothing dec0 [] st0 c1data (fun _ => true) _ rfl
    (by decide) (by decide) (by decide)

/-- Claim C2 counterexample: with two issued calls of which the second fails,
the `Promise.all` rejects, its `.then` never runs, and the cart query is NOT
invalidated — the claim demands invalidation "whether or not every call
succeeded".  Exactly one aggregate error is logged, not one per failure. -/
theorem partial_failure_no_invalidate_counterexample :
    (onSuccessStep dec0 [] st0 c2data (fun i => decide (i = 0))).cartCalls.length = 2
    ∧ (onSuccessStep dec0 [] st0 c2data (fun i => decide (i = 0))).cartInvalidated = false
    ∧ (onSuccessStep dec0 [] st0 c2data (fun i => decide (i = 0))).fanOutErrors = 1 := by
  decide

/-- Claim C2 (amended): the set of issued calls never depends on the
outcomes (each call runs regardless of the others failing); the cart query is
invalidated — and nothing is logged — iff every call of the (non-empty)
fan-out succeeded; on any failure a single aggregate error is logged and the
cart query is not invalidated. -/
theorem cart_fanout_outcome_behavior (dec : String → Option AssistantResponse)
    (products : List Product) (st : ChatState) (data : ApiResponse)
    (r : AssistantResponse)
    (hr : parseAssistantResponse dec data.assistantResponse = r)
    (hne : cartCallsFor r ≠ []) :
    (∀ out out' : Nat → Bool,
      (onSuccessStep dec products st data out).cartCalls
        = (onSuccessStep dec products st data out').cartCalls)
    ∧ (∀ out : Nat → Bool,
        (∀ i, i < (cartCallsFor r).length → out i = true) →
        (onSuccessStep dec products st data out).cartInvalidated = true
        ∧ (onSuccessStep dec products st data out).fanOutErrors = 0)
    ∧ (∀ out : Nat → Bool, ∀ i, i < (cartCallsFor r).length → out i = false →
        (onSuccessStep dec products st data out).cartInvalidated = false
        ∧ (onSuccessStep dec products st data out).fanOutErrors = 1) := by
  subst hr
  have hempty :
      (cartCallsFor (parseAssistantResponse dec data.assistantResponse)).isEmpty
        = false := by
    cases hc : cartCallsFor (parseAssistantResponse dec data.assistantResponse) with
    | nil => exact absurd hc hne
    | cons a as => rfl
  refine ⟨fun out out' => rfl, ?_, ?_⟩
  · intro out hall
    have ha : allSucceeded
        (cartCallsFor (parseAssistantResponse dec data.assistantResponse)) out = true := by
      simp [allSucceeded, List.all_eq_true, List.mem_range]
      exact hall
    exact ⟨by simp [onSuccessStep, fanOutInvalidated, ha, hempty],
      by simp [onSuccessStep, fanOutErrorCount, ha, hempty]⟩
  · intro out i hi hfalse
    have ha : allSucceeded
        (cartCallsFor (parseAssistantResponse dec data.assistantResponse)) out = false := by
      rw [allSucceeded]
      rcases h : (List.range
          (cartCallsFor (parseAssistantResponse dec data.assistantResponse)).length).all out with _ | _
      · rfl
      · exact absurd ((List.all_eq_true.mp h) i (List.mem_range.mpr hi))
          (by simp [hfalse])
    exact ⟨by simp [onSuccessStep, fanOutInvalidated, ha],
      by simp [onSuccessStep, fanOutErrorCount, ha, hempty]⟩

/-- Witness for amended C2 at `c2data` with both calls succeeding. -/
theorem cart_fanout_outcome_behavior_witness :
    (onSuccessStep dec0 [] st0 c2data (fun _ => true)).cartInvalidated = true
    ∧ (onSuccessStep dec0 [] st0 c2data (fun _ => true)).fanOutErrors = 0 :=
  (cart_fanout_outcome_behavior dec0 [] st0 c2data _ rfl (by decide)).2.1
    (fun _ => true) (fun _ _ => rfl)

/-- Claim C3 counterexample: for the ref `{id 3, quantity 0}` the issued call
carries quantity 1, not the ref's quantity 0 — `product.quantity || 1`
defaults for the falsy value 0, not only for an absent quantity. -/
theorem zero_quantity_counterexample :
    (cartCallsFor c3ex).map (fun c => c.quantity) = [1]
    ∧ ¬ (cartCallsFor c3ex).map (fun c => c.quantity) = [0] := by
  decide

/-- Claim C3 (amended): a `do` event with action `add to cart` or `remove
from cart` and a non-empty product list issues exactly one call per ref, in
order, carrying the ref's id (in `selectedPrice` for add, `productId` for
remove) and its quantity, with the quantity defaulting to 1 when absent or
zero. -/
theorem cart_fanout_calls_per_ref (r : AssistantResponse) (l : List ProductRef)
    (he : r.event = some "do") (hl : r.productList = some l)
    (hne : l.isEmpty = false) :
    (r.action = some "add to cart" →
      (cartCallsFor r).length = l.length
      ∧ ∀ i : Nat, (cartCallsFor r)[i]?
          = (l[i]?).map (fun p =>
              { selectedPrice := some p.id, action := "add",
                quantity := jsOr1 p.quantity }))
    ∧ (r.action = some "remove from cart" →
      (cartCallsFor r).length = l.length
      ∧ ∀ i : Nat, (cartCallsFor r)[i]?
          = (l[i]?).map (fun p =>
              { productId := some p.id, action := "remove",
                quantity := jsOr1 p.quantity }))
    ∧ jsOr1 none = 1 ∧ jsOr1 (some 0) = 1
    ∧ (∀ q : Nat, q ≠ 0 → jsOr1 (some q) = q) := by
  refine ⟨?_, ?_, rfl, rfl, ?_⟩
  · intro ha
    constructor
    · simp [cartCallsFor, he, hl, hne, ha]
    · intro i
      simp [cartCallsFor, he, hl, hne, ha]
  · intro ha
    constructor
    · simp [cartCallsFor, he, hl, hne, ha]
    · intro i
      simp [cartCallsFor, he, hl, hne, ha]
  · intro q hq
    simp [jsOr1, hq]

/-- Witness for amended C3 at the spec scenario: remove(3, qty 2) and
remove(9, qty 1 by default). -/
theorem cart_fanout_calls_per_ref_witness :
    (cartCallsFor c3w).length = 2
    ∧ (cartCallsFor c3w)[0]?
        = some { productId := some 3, action := "remove", quantity := 2 }
    ∧ (cartCallsFor c3w)[1]?
        = some { productId := some 9, action := "remove", quantity := 1 } := by
  have h := (cart_fanout_calls_per_ref c3w
      [{ id := 3, quantity := some 2 }, { id := 9 }] rfl rfl rfl).2.1 rfl
  exact ⟨h.1, by rw [h.2 0]; decide, by rw [h.2 1]; decide⟩

/-- Claim C5: replies of kind `message` or `suggest` (indeed, any reply not
of kind `do`) issue no cart mutation call and no navigation instruction. -/
theorem side_effects_only_for_do (dec : String → Option AssistantResponse)
    (products : List Product) (st : ChatState) (data : ApiResponse)
    (out : Nat → Bool) (r : AssistantResponse)
    (hr : parseAssistantResponse dec data.assistantResponse = r) :
    ((r.event = some "message" ∨ r.event = some "suggest") →
      (onSuccessStep dec products st data out).cartCalls = []
      ∧ (onSuccessStep dec products st data out).navigation = none)
    ∧ (r.event ≠ some "do" →
      (onSuccessStep dec products st data out).cartCalls = []
      ∧ (onSuccessStep dec products st data out).navigation = none) := by
  have hgen : r.event ≠ some "do" →
      (onSuccessStep dec products st data out).cartCalls = []
      ∧ (onSuccessStep dec products st data out).navigation = none := by
    intro hne
    exact ⟨by simp [onSuccessStep, hr, cartCallsFor, hne],
      by simp [onSuccessStep, hr, navigationFor, hne]⟩
  refine ⟨?_, hgen⟩
  intro h
  apply hgen
  rcases h with h | h <;> rw [h] <;> simp

/-- Witness for C5 at the concrete `suggest` reply `c5data`. -/
theorem side_effects_only_for_do_witness :
    (onSuccessStep dec0 [] st0 c5data (fun _ => true)).cartCalls = []
    ∧ (onSuccessStep dec0 [] st0 c5data (fun _ => true)).navigation = none :=
  (side_effects_only_for_do dec0 [] st0 c5data (fun _ => true) _ rfl).1
    (Or.inr rfl)
